import Mathlib

/-!
Verification of the transcription-capture state machine and summarization
request orchestrator of the ai-meeting-summarizer application.

The component state of `LiveTranscription` (src/components/LiveTranscription.tsx)
is embedded as the structure `ComponentState`; the event handlers
(`onresult`, `onerror`, `startListening`, `stopListening`,
`summarizeTranscription`, `clearTranscription`) and the API route
(src/app/api/summarizer/route.ts `POST`) are embedded as functions on it.
-/

namespace MeetingSummarizer

/-- The React state of the `LiveTranscription` component, together with the
bookkeeping needed to observe the recognition-engine resource:
`engineInitialized` models `recognition.current !== null`, `engineActive`
models whether the underlying recognition engine is running,
`engineStarts` counts calls to `recognition.current.start()`,
`requestsIssued` counts issued `fetch("/api/summarizer", ...)` calls, and
`unmounted` records that the component was torn down. -/
structure ComponentState where
  transcription : String
  summarizedText : String
  isListening : Bool
  isLoading : Bool
  isEditing : Bool
  isCopied : Bool
  engineInitialized : Bool
  engineActive : Bool
  engineStarts : Nat
  requestsIssued : Nat
  unmounted : Bool
  deriving Repr, DecidableEq

/-- The state right after mount: all text empty, all flags false, the
mount effect has installed a fresh (inactive) recognition engine. -/
def initialState : ComponentState :=
  { transcription := ""
    summarizedText := ""
    isListening := false
    isLoading := false
    isEditing := false
    isCopied := false
    engineInitialized := true
    engineActive := false
    engineStarts := 0
    requestsIssued := 0
    unmounted := false }

/-- The `onresult` handler: joins the transcripts of the delivered results with
the empty separator and appends the joined text to the transcription
(`setTranscription((prev) => prev + transcript)`). `results` is the list of
`result[0].transcript` strings carried by the event. -/
def onresult (st : ComponentState) (results : List String) : ComponentState :=
  let transcript := String.join results
  { st with transcription := st.transcription ++ transcript }

/-- The `onerror` handler: on `"no-speech"` it logs a warning and re-issues
`recognition.current?.start()` (optional chaining: a no-op when the engine
reference is null); every other error kind is only logged. -/
def onerror (st : ComponentState) (error : String) : ComponentState :=
  if error = "no-speech" then
    if st.engineInitialized then
      { st with engineActive := true, engineStarts := st.engineStarts + 1 }
    else st
  else st

/-- Handler `startListening`: alerts and returns if the engine reference is null,
otherwise calls `recognition.current.start()` and sets `isListening`. -/
def startListening (st : ComponentState) : ComponentState :=
  if st.engineInitialized then
    { st with engineActive := true, engineStarts := st.engineStarts + 1,
              isListening := true }
  else st

/-- Handler `stopListening`: alerts and returns if the engine reference is null,
otherwise calls `recognition.current.stop()` and clears `isListening`. -/
def stopListening (st : ComponentState) : ComponentState :=
  if st.engineInitialized then
    { st with engineActive := false, isListening := false }
  else st

/-- The mount-effect cleanup: `recognition.current?.stop()`, the engine
reference is dropped, and the component's state is gone (`unmounted`). -/
def teardown (st : ComponentState) : ComponentState :=
  { st with engineActive := false, engineInitialized := false,
            unmounted := true }

/-- Handler `clearTranscription`: `setTranscription(""); setSummarizedText("")`. -/
def clearTranscription (st : ComponentState) : ComponentState :=
  { st with transcription := "", summarizedText := "" }

/-- Handler `toggleEditing`: `setIsEditing((prev) => !prev)`. -/
def toggleEditing (st : ComponentState) : ComponentState :=
  { st with isEditing := !st.isEditing }

/-- The start button carries `disabled={isListening}`. -/
def startButtonDisabled (st : ComponentState) : Bool := st.isListening

/-- The stop button carries `disabled={!isListening}`. -/
def stopButtonDisabled (st : ComponentState) : Bool := !st.isListening

/-- The summarize button carries `disabled={isLoading}`. -/
def summarizeButtonDisabled (st : ComponentState) : Bool := st.isLoading

/-- The spec's abstract capture state. -/
inductive CaptureState
  | Idle
  | Listening
  | Stopped
  deriving Repr, DecidableEq

/-- The abstract `CaptureState` of a component state: a torn-down session
is `Stopped`; otherwise `isListening` distinguishes `Listening` from
`Idle`. -/
def captureState (st : ComponentState) : CaptureState :=
  if st.unmounted then .Stopped
  else if st.isListening then .Listening
  else .Idle

/-- The capture-related events the component reacts to: the two button
clicks, the engine's result and error callbacks, and teardown. -/
inductive CaptureEvent
  | startCapture
  | stopCapture
  | recognitionResult (fragments : List String)
  | captureError (kind : String)
  | teardown
  deriving Repr, DecidableEq

/-- One capture transition. Environment-enforced guards: nothing is
delivered to an unmounted component, a disabled button cannot be clicked,
and only an active engine delivers `onresult`/`onerror` callbacks. -/
def stepCapture (st : ComponentState) : CaptureEvent → ComponentState
  | .startCapture =>
      if st.unmounted then st
      else if startButtonDisabled st then st
      else startListening st
  | .stopCapture =>
      if st.unmounted then st
      else if stopButtonDisabled st then st
      else stopListening st
  | .recognitionResult fragments =>
      if st.engineActive then onresult st fragments else st
  | .captureError kind =>
      if st.engineActive then onerror st kind else st
  | .teardown =>
      if st.unmounted then st else teardown st

/-- Run a sequence of capture events from a state. -/
def runCapture (st : ComponentState) (events : List CaptureEvent) : ComponentState :=
  events.foldl stepCapture st

/-- Deliver a sequence of recognition result events (each the list of
`result[0].transcript` fragments of one event) to the `onresult` handler. -/
def deliverResults (st : ComponentState) (events : List (List String)) : ComponentState :=
  events.foldl onresult st

/-- Outcome reported to the user by a summarize-button click:
`emptyTranscript` is the `alert("No transcription available to summarize.")`
advisory, `alreadyInFlight` means the button was disabled so the handler
never ran, `requestIssued` means a `fetch` was issued. -/
inductive SummarizeOutcome
  | emptyTranscript
  | alreadyInFlight
  | requestIssued
  deriving Repr, DecidableEq

/-- A summarize-button click up to the point the `fetch` is issued: the
`disabled={isLoading}` guard keeps the handler from running at all; the
handler itself returns after an alert when the transcription is the empty
string; otherwise it sets `isLoading` and issues the request. -/
def requestSummary (st : ComponentState) : ComponentState × SummarizeOutcome :=
  if summarizeButtonDisabled st then (st, .alreadyInFlight)
  else if st.transcription = "" then (st, .emptyTranscript)
  else ({ st with isLoading := true,
                  requestsIssued := st.requestsIssued + 1 }, .requestIssued)

/-- How an issued `fetch("/api/summarizer", ...)` call settles:
`response ok summaryField` is a response whose `ok` flag and parsed
`data.summary` field are given (`none` when the field is absent);
`transportFailure detail` is a rejected `fetch` (or a body that fails to
parse), carrying the transport-level detail that is only logged. -/
inductive FetchOutcome
  | response (ok : Bool) (summaryField : Option String)
  | transportFailure (detail : String)
  deriving Repr, DecidableEq

/-- Evaluation of `data.summary || "No summary available."`: a missing or
empty (falsy) summary field falls back to the fixed string. -/
def usableSummary : Option String → String
  | some s => if s = "" then "No summary available." else s
  | none => "No summary available."

/-- The continuation of `summarizeTranscription` after the awaited `fetch`
settles: an ok response stores `data.summary || "No summary available."`;
a non-ok response throws and the catch stores the fixed string
`"Failed to summarize transcription."`; a transport failure reaches the
same catch. In every branch the `finally` clears `isLoading`. -/
def resolveSummary (st : ComponentState) : FetchOutcome → ComponentState
  | .response true summaryField =>
      { st with summarizedText := usableSummary summaryField, isLoading := false }
  | .response false _ =>
      { st with summarizedText := "Failed to summarize transcription.",
                isLoading := false }
  | .transportFailure _ =>
      { st with summarizedText := "Failed to summarize transcription.",
                isLoading := false }

/-- Body of a `/api/summarizer` response: either `{ summary: s }` or
`{ error: e }`. -/
inductive ApiBody
  | summary (s : String)
  | jsonError (e : String)
  deriving Repr, DecidableEq

/-- A `/api/summarizer` response: HTTP status and JSON body. -/
structure ApiResponse where
  status : Nat
  body : ApiBody
  deriving Repr, DecidableEq

/-- How the upstream `openai.chat.completions.create` call settles:
`ok content` is a response whose `choices[0]?.message?.content` is given
(`none` when absent); `thrown (some m)` is a thrown `Error` with message
`m`; `thrown none` is a thrown non-`Error` value. -/
inductive UpstreamOutcome
  | ok (content : Option String)
  | thrown (message : Option String)
  deriving Repr, DecidableEq

/-- The `POST` handler of src/app/api/summarizer/route.ts, as a function of
the `meetingText` field of the parsed request body (`none` when missing)
and of the upstream call's outcome. The returned `Bool` records whether
the upstream summarization call was made. -/
def POST (meetingText : Option String) (upstream : UpstreamOutcome) :
    ApiResponse × Bool :=
  if meetingText.getD "" = "" then
    (⟨400, .jsonError "Meeting text is required in the request body."⟩, false)
  else
    match upstream with
    | .ok content =>
        let c := match content with
          | some s => if s = "" then "No summary generated." else s
          | none => "No summary generated."
        (⟨200, .summary c⟩, true)
    | .thrown (some m) => (⟨500, .jsonError m⟩, true)
    | .thrown none =>
        (⟨500, .jsonError
          "An unknown error occurred while generating the meeting summary."⟩,
         true)

/-! ## Theorems -/

/-- Joining a non-empty list of strings with the empty separator peels off
the head. -/
theorem join_cons (a : String) (l : List String) :
    String.join (a :: l) = a ++ String.join l := by
  apply String.ext
  simp [String.join_eq]

/-- C1: delivering any sequence of recognition result events while
`Listening` extends the transcription by exactly the concatenation, in
delivery order, of the per-event segment texts (each the join of that
event's result fragments): no segment is lost, reordered, or appended more
than once. -/
theorem transcript_concat_of_results (st : ComponentState)
    (events : List (List String)) (h : st.isListening = true) :
    (deliverResults st events).transcription =
      st.transcription ++ String.join (events.map String.join) := by
  induction events generalizing st with
  | nil =>
      simp [deliverResults, String.join, String.append_empty]
  | cons e es ih =>
      have hl : (onresult st e).isListening = true := h
      calc (deliverResults st (e :: es)).transcription
          = (deliverResults (onresult st e) es).transcription := rfl
        _ = (onresult st e).transcription ++ String.join (es.map String.join) :=
            ih (onresult st e) hl
        _ = st.transcription ++
              String.join ((e :: es).map String.join) := by
            simp only [onresult, List.map_cons, join_cons,
              String.append_assoc]

/-- Witness for C1 at a concrete listening state and two result events. -/
theorem transcript_concat_of_results_witness :
    ({ initialState with isListening := true } : ComponentState).isListening
        = true ∧
    (deliverResults { initialState with isListening := true }
        [["hello ", "world"], [", bye"]]).transcription =
      "" ++ String.join ([["hello ", "world"], [", bye"]].map String.join) :=
  ⟨rfl, transcript_concat_of_results { initialState with isListening := true }
    [["hello ", "world"], [", bye"]] rfl⟩

/-- C2 counterexample: the three failure kinds do not all yield one
identical message. At a concrete pending state, an ok response with a
missing summary field stores `"No summary available."`, while a non-ok
response stores `"Failed to summarize transcription."`, and the two fixed
strings differ. -/
theorem failure_messages_not_uniform :
    (resolveSummary { initialState with transcription := "hi", isLoading := true }
        (.response true none)).summarizedText = "No summary available." ∧
    (resolveSummary { initialState with transcription := "hi", isLoading := true }
        (.response false none)).summarizedText =
      "Failed to summarize transcription." ∧
    "No summary available." ≠ "Failed to summarize transcription." :=
  ⟨rfl, rfl, by decide⟩

/-- C2 amended: an ok response with a missing or empty summary field stores
the fixed string `"No summary available."`, while a non-ok HTTP status and
a transport failure both store the same fixed fallback
`"Failed to summarize transcription."`; both strings are fixed and
independent of any transport-level detail. -/
theorem failure_message_per_kind (st : ComponentState) (f : Option String)
    (detail : String) :
    (resolveSummary st (.response true none)).summarizedText =
      "No summary available." ∧
    (resolveSummary st (.response true (some ""))).summarizedText =
      "No summary available." ∧
    (resolveSummary st (.response false f)).summarizedText =
      "Failed to summarize transcription." ∧
    (resolveSummary st (.transportFailure detail)).summarizedText =
      "Failed to summarize transcription." :=
  ⟨rfl, rfl, rfl, rfl⟩

/-- C3 counterexample: the guard is `if (!transcription)`, which only
catches the empty string. On the whitespace-only transcript `" "` a click
does issue a network call (the issued-request counter increases). -/
theorem whitespace_transcript_issues_request :
    (" ").data.all Char.isWhitespace = true ∧
    (requestSummary { initialState with transcription := " " }).2 =
      .requestIssued ∧
    (requestSummary { initialState with transcription := " " }).1.requestsIssued
      = initialState.requestsIssued + 1 := by
  refine ⟨by decide, ?_, ?_⟩ <;> rfl

/-- C3 amended: when no request is in flight and the transcript is the
empty string (but not merely whitespace-only), a summarize click issues no
network call, yields the empty-transcript advisory, and leaves the whole
state — in particular the summary — unchanged. -/
theorem empty_transcript_no_request (st : ComponentState)
    (h : st.isLoading = false) (he : st.transcription = "") :
    requestSummary st = (st, .emptyTranscript) := by
  simp [requestSummary, summarizeButtonDisabled, h, he]

/-- Witness for C3 amended at the initial state. -/
theorem empty_transcript_no_request_witness :
    initialState.isLoading = false ∧ initialState.transcription = "" ∧
    requestSummary initialState = (initialState, .emptyTranscript) :=
  ⟨rfl, rfl, empty_transcript_no_request initialState rfl rfl⟩

/-- C4: while a request is outstanding (`isLoading`), a further summarize
click is rejected by the `disabled={isLoading}` guard: the state is
unchanged, no second request is issued, and the eventual resolution of the
original request is exactly what it would have been without the click. -/
theorem pending_rejects_second_request (st : ComponentState)
    (h : st.isLoading = true) :
    requestSummary st = (st, .alreadyInFlight) ∧
    ∀ o : FetchOutcome,
      resolveSummary (requestSummary st).1 o = resolveSummary st o := by
  constructor
  · simp [requestSummary, summarizeButtonDisabled, h]
  · intro o
    simp [requestSummary, summarizeButtonDisabled, h]

/-- Witness for C4 at a concrete pending state. -/
theorem pending_rejects_second_request_witness :
    ({ initialState with transcription := "hi", isLoading := true }
        : ComponentState).isLoading = true ∧
    (requestSummary { initialState with transcription := "hi", isLoading := true }
        = ({ initialState with transcription := "hi", isLoading := true },
           .alreadyInFlight) ∧
      ∀ o : FetchOutcome,
        resolveSummary
            (requestSummary
              { initialState with transcription := "hi", isLoading := true }).1 o
          = resolveSummary
              { initialState with transcription := "hi", isLoading := true } o) :=
  ⟨rfl, pending_rejects_second_request
    { initialState with transcription := "hi", isLoading := true } rfl⟩

/-- C6 counterexample: from a prior state with edit mode on, a clear click
resets the transcription and the summary but leaves `isEditing` true — it
does not force edit mode off. -/
theorem clear_keeps_edit_mode :
    (clearTranscription { initialState with transcription := "t", summarizedText := "s", isEditing := true }).transcription = "" ∧
    (clearTranscription { initialState with transcription := "t", summarizedText := "s", isEditing := true }).summarizedText = "" ∧
    (clearTranscription { initialState with transcription := "t", summarizedText := "s", isEditing := true }).isEditing = true :=
  ⟨rfl, rfl, rfl⟩

/-- C6 amended: for every prior state, the clear intent yields an empty
transcription and an empty summary, but leaves the edit-mode flag exactly
as it was rather than forcing it off. -/
theorem clear_resets_texts (st : ComponentState) :
    (clearTranscription st).transcription = "" ∧
    (clearTranscription st).summarizedText = "" ∧
    (clearTranscription st).isEditing = st.isEditing :=
  ⟨rfl, rfl, rfl⟩

/-- A component state maps to abstract `Listening` exactly when it is
mounted and its `isListening` flag is set. -/
theorem captureState_eq_listening (st : ComponentState) :
    captureState st = .Listening ↔
      (st.unmounted = false ∧ st.isListening = true) := by
  unfold captureState
  cases hu : st.unmounted <;> cases hl : st.isListening <;> simp

/-- A component state maps to abstract `Idle` exactly when it is mounted
and its `isListening` flag is clear. -/
theorem captureState_eq_idle (st : ComponentState) :
    captureState st = .Idle ↔
      (st.unmounted = false ∧ st.isListening = false) := by
  unfold captureState
  cases hu : st.unmounted <;> cases hl : st.isListening <;> simp

/-- C5: a `no-speech` capture error handled while `Listening` (with the
engine active and installed) re-issues a `start()` on the same engine
instance, leaves the abstract capture state `Listening`, and leaves the
accumulated transcription unchanged. -/
theorem no_speech_keeps_listening (st : ComponentState)
    (h : captureState st = .Listening) (ha : st.engineActive = true)
    (hi : st.engineInitialized = true) :
    (stepCapture st (.captureError "no-speech")).transcription =
      st.transcription ∧
    captureState (stepCapture st (.captureError "no-speech")) = .Listening ∧
    (stepCapture st (.captureError "no-speech")).engineStarts =
      st.engineStarts + 1 ∧
    (stepCapture st (.captureError "no-speech")).engineActive = true := by
  obtain ⟨hu, hl⟩ := (captureState_eq_listening st).mp h
  simp [stepCapture, onerror, ha, hi, captureState, hu, hl]

/-- Witness for C5 at a concrete listening state with accumulated text. -/
theorem no_speech_keeps_listening_witness :
    captureState { initialState with transcription := "hello", isListening := true, engineActive := true, engineStarts := 1 } = .Listening ∧
    ({ initialState with transcription := "hello", isListening := true, engineActive := true, engineStarts := 1 } : ComponentState).engineActive = true ∧
    ({ initialState with transcription := "hello", isListening := true, engineActive := true, engineStarts := 1 } : ComponentState).engineInitialized = true ∧
    ((stepCapture { initialState with transcription := "hello", isListening := true, engineActive := true, engineStarts := 1 } (.captureError "no-speech")).transcription = "hello" ∧
      captureState (stepCapture { initialState with transcription := "hello", isListening := true, engineActive := true, engineStarts := 1 } (.captureError "no-speech")) = .Listening ∧
      (stepCapture { initialState with transcription := "hello", isListening := true, engineActive := true, engineStarts := 1 } (.captureError "no-speech")).engineStarts = 1 + 1 ∧
      (stepCapture { initialState with transcription := "hello", isListening := true, engineActive := true, engineStarts := 1 } (.captureError "no-speech")).engineActive = true) :=
  ⟨rfl, rfl, rfl,
    no_speech_keeps_listening
      { initialState with transcription := "hello", isListening := true, engineActive := true, engineStarts := 1 }
      rfl rfl rfl⟩

/-- Every capture transition preserves the engine/capture-state
correspondence. -/
theorem engineInv_step (st : ComponentState) (e : CaptureEvent)
    (h : st.engineActive = true ↔ captureState st = .Listening) :
    ((stepCapture st e).engineActive = true ↔
      captureState (stepCapture st e) = .Listening) := by
  simp only [captureState_eq_listening] at h ⊢
  cases e with
  | startCapture =>
      cases hu : st.unmounted <;> cases hl : st.isListening <;>
        cases hi : st.engineInitialized <;>
        simp_all [stepCapture, startButtonDisabled, startListening]
  | stopCapture =>
      cases hu : st.unmounted <;> cases hl : st.isListening <;>
        cases hi : st.engineInitialized <;>
        simp_all [stepCapture, stopButtonDisabled, stopListening]
  | recognitionResult fragments =>
      cases ha : st.engineActive <;> simp_all [stepCapture, onresult]
  | captureError kind =>
      by_cases hk : kind = "no-speech" <;>
        cases ha : st.engineActive <;> cases hi : st.engineInitialized <;>
        simp_all [stepCapture, onerror]
  | teardown =>
      cases hu : st.unmounted <;> simp_all [stepCapture, teardown]

/-- Running any event sequence preserves the engine/capture-state
correspondence. -/
theorem runCapture_engineInv (events : List CaptureEvent)
    (st : ComponentState)
    (h : st.engineActive = true ↔ captureState st = .Listening) :
    ((runCapture st events).engineActive = true ↔
      captureState (runCapture st events) = .Listening) := by
  induction events generalizing st with
  | nil => exact h
  | cons e es ih => exact ih _ (engineInv_step st e h)

/-- C7: in every state reachable from the freshly mounted component by
start/stop clicks, recognition results, capture errors and teardown, the
underlying recognition engine is active exactly when the abstract capture
state is `Listening`. -/
theorem engine_active_iff_listening (events : List CaptureEvent) :
    ((runCapture initialState events).engineActive = true ↔
      captureState (runCapture initialState events) = .Listening) :=
  runCapture_engineInv events initialState (by decide)

/-- C9: a start click while `Listening` and a stop click while `Idle` are
both blocked by the buttons' `disabled` guards: the state is entirely
unchanged, and the only surfaced signal is the disabled (advisory)
rendering of the button. -/
theorem redundant_start_stop_noop (st st' : ComponentState)
    (h : captureState st = .Listening) (h' : captureState st' = .Idle) :
    (stepCapture st .startCapture = st ∧ startButtonDisabled st = true) ∧
    (stepCapture st' .stopCapture = st' ∧ stopButtonDisabled st' = true) := by
  obtain ⟨hu, hl⟩ := (captureState_eq_listening st).mp h
  obtain ⟨hu', hl'⟩ := (captureState_eq_idle st').mp h'
  refine ⟨⟨?_, ?_⟩, ⟨?_, ?_⟩⟩ <;>
    simp [stepCapture, startButtonDisabled, stopButtonDisabled, hu, hl,
      hu', hl']

/-- Witness for C9: a redundant start at a concrete listening state and a
redundant stop at the initial (idle) state. -/
theorem redundant_start_stop_noop_witness :
    captureState { initialState with isListening := true, engineActive := true } = .Listening ∧
    captureState initialState = .Idle ∧
    ((stepCapture { initialState with isListening := true, engineActive := true } .startCapture = { initialState with isListening := true, engineActive := true } ∧
        startButtonDisabled { initialState with isListening := true, engineActive := true } = true) ∧
      (stepCapture initialState .stopCapture = initialState ∧
        stopButtonDisabled initialState = true)) :=
  ⟨rfl, rfl,
    redundant_start_stop_noop
      { initialState with isListening := true, engineActive := true }
      initialState rfl rfl⟩

/-- C8: a missing or empty `meetingText` yields status 400 with the exact
error body and no upstream call; an upstream failure yields status 500
with an error string in the body (the thrown message, or the fixed
unknown-error string for a non-`Error` throw). -/
theorem post_route_validation (t : String) (ht : t ≠ "")
    (u : UpstreamOutcome) (m : String) :
    POST none u =
      (⟨400, .jsonError "Meeting text is required in the request body."⟩,
       false) ∧
    POST (some "") u =
      (⟨400, .jsonError "Meeting text is required in the request body."⟩,
       false) ∧
    POST (some t) (.thrown (some m)) = (⟨500, .jsonError m⟩, true) ∧
    POST (some t) (.thrown none) =
      (⟨500, .jsonError
        "An unknown error occurred while generating the meeting summary."⟩,
       true) := by
  refine ⟨rfl, rfl, ?_, ?_⟩ <;> simp [POST, ht]

/-- Witness for C8 at a concrete non-empty meeting text and upstream
failure message. -/
theorem post_route_validation_witness :
    ("We agreed to ship Friday." : String) ≠ "" ∧
    (POST none (.ok none) =
        (⟨400, .jsonError "Meeting text is required in the request body."⟩,
         false) ∧
      POST (some "") (.ok none) =
        (⟨400, .jsonError "Meeting text is required in the request body."⟩,
         false) ∧
      POST (some "We agreed to ship Friday.") (.thrown (some "upstream timeout")) =
        (⟨500, .jsonError "upstream timeout"⟩, true) ∧
      POST (some "We agreed to ship Friday.") (.thrown none) =
        (⟨500, .jsonError
          "An unknown error occurred while generating the meeting summary."⟩,
         true)) :=
  ⟨by decide,
    post_route_validation "We agreed to ship Friday." (by decide) (.ok none)
      "upstream timeout"⟩

/-- C10: however an issued request settles — ok response (usable summary
field or not), non-ok status, or transport failure — the `finally` block
clears the loading flag, so the result is never left pending and the
summarize button is enabled again. -/
theorem loading_cleared_on_resolution (st : ComponentState) (o : FetchOutcome) :
    (resolveSummary st o).isLoading = false ∧
    summarizeButtonDisabled (resolveSummary st o) = false := by
  cases o with
  | response ok f => cases ok <;> exact ⟨rfl, rfl⟩
  | transportFailure d => exact ⟨rfl, rfl⟩

end MeetingSummarizer
